import Mathlib

/-!
Shallow embedding of the gesture classification / state-transition pipeline of
the holiday-tree scene (HandController, PhotoCloud picking block, App initial
state).

Conventions of the embedding:
* JS numbers are modelled as exact numbers: timestamps (`Date.now()`
  milliseconds) as `ℕ`, world-space picker coordinates as `ℚ` (all picker
  arithmetic is polynomial, no square roots), and classifier landmark geometry
  as `ℝ` (because `Math.hypot` takes a square root).
* `Real` division is total with `x / 0 = 0`, whereas JS division by zero
  yields `Infinity`/`NaN`; theorems about the classifier therefore carry
  nondegeneracy hypotheses (nonzero curl-ratio denominators) delimiting the
  domain on which the real-number embedding agrees with the JS float program.
* The React refs (`gestureTimeoutRef`, `wasPinchingRef`, `rayRef`,
  `appState`) become an explicit state record threaded through one step
  function per rendered frame.
-/

/-- Application state, from `types.ts` (`enum AppState`). -/
inductive AppState where
  | CHAOS
  | FORMED
  | PHOTO_VIEW
deriving DecidableEq

/-- Published gesture verdict, from `types.ts` (`interface HandGesture`):
three mutually exclusive flags plus a normalized pointer position.
Coordinates are modelled as exact rationals. -/
structure HandGesture where
  isFist : Bool
  isOpen : Bool
  isPinch : Bool
  posX : ℚ
  posY : ℚ
deriving DecidableEq

/-- Mutable controller state of `HandController`: the `appState` prop, the
cooldown timestamp `gestureTimeoutRef.current` and the pinch edge-detection
flag `wasPinchingRef.current`. -/
structure CtrlState where
  appState : AppState
  gestureTimeout : ℕ
  wasPinching : Bool
deriving DecidableEq

/-- Result of one controller frame: the gesture published via `setGesture`,
the NDC position of the emitted pinch ray (if `onPinch` fired; the camera
unprojection itself is an external collaborator), and the new controller
state. -/
structure FrameResult where
  gesture : HandGesture
  pinchRay : Option (ℚ × ℚ)
  state : CtrlState
deriving DecidableEq

/-- The gesture published on a frame with no hand detected
(`HandController` else-branch): all flags false, pointer at (0.5, 0.5). -/
def noHandGesture : HandGesture := ⟨false, false, false, 1/2, 1/2⟩

/-- One frame of the `HandController` action logic (`useFrame` body after
classification), given the classified verdict (`none` = no hand detected
this frame) and the current wall-clock time `now` in milliseconds:

1. pinch rising edge (`isPinch && !wasPinchingRef.current`) emits a ray at
   NDC `(handX * 2 - 1, -(handY * 2) + 1)`; every pinch frame sets
   `gestureTimeoutRef.current = now + 500`; then `wasPinchingRef := isPinch`;
2. state switching runs only when `now > gestureTimeoutRef.current && !isPinch`:
   Fist in CHAOS goes to FORMED, Open in FORMED or PHOTO_VIEW goes to CHAOS,
   each setting the cooldown to `now + 1000`;
3. with no hand, the verdict resets to `noHandGesture` and
   `wasPinchingRef := false`, everything else untouched. -/
def frameStep (input : Option HandGesture) (now : ℕ) (s : CtrlState) : FrameResult :=
  match input with
  | some g =>
      let ndc : Option (ℚ × ℚ) :=
        if g.isPinch && !s.wasPinching then
          some (g.posX * 2 - 1, -(g.posY * 2) + 1)
        else
          none
      let t1 : ℕ := if g.isPinch then now + 500 else s.gestureTimeout
      let st : AppState × ℕ :=
        if now > t1 ∧ g.isPinch = false then
          if g.isFist then
            (if s.appState = AppState.CHAOS then (AppState.FORMED, now + 1000)
             else (s.appState, t1))
          else if g.isOpen then
            (if s.appState = AppState.FORMED ∨ s.appState = AppState.PHOTO_VIEW then
               (AppState.CHAOS, now + 1000)
             else (s.appState, t1))
          else (s.appState, t1)
        else (s.appState, t1)
      ⟨g, ndc, ⟨st.1, st.2, g.isPinch⟩⟩
  | none =>
      ⟨noHandGesture, none, ⟨s.appState, s.gestureTimeout, false⟩⟩

/-- A pure Fist verdict (flags as the classifier emits them for Rule 1). -/
def fistVerdict : HandGesture := ⟨true, false, false, 1/2, 1/2⟩

/-- A pure Open verdict (flags as the classifier emits them for Rule 3). -/
def openVerdict : HandGesture := ⟨false, true, false, 1/2, 1/2⟩

/-- A pure Pinch verdict (flags as the classifier emits them for Rule 2). -/
def pinchVerdict : HandGesture := ⟨false, false, true, 1/2, 1/2⟩

/-- Number of frames on which the application state changes while running the
controller over a list of (verdict, time) frames. -/
def transCount (s : CtrlState) : List (Option HandGesture × ℕ) → ℕ
  | [] => 0
  | (g, now) :: rest =>
      let s' := (frameStep g now s).state
      (if s'.appState = s.appState then 0 else 1) + transCount s' rest

/-- World-space 3D vector with exact rational coordinates (three.js
`Vector3` as used by the picking block). -/
structure Vec3 where
  x : ℚ
  y : ℚ
  z : ℚ
deriving DecidableEq

/-- Componentwise difference (`Vector3.subVectors`). -/
def Vec3.sub (a b : Vec3) : Vec3 := ⟨a.x - b.x, a.y - b.y, a.z - b.z⟩

/-- Dot product (`Vector3.dot`). -/
def Vec3.dot (a b : Vec3) : ℚ := a.x * b.x + a.y * b.y + a.z * b.z

/-- `Vector3.addScaledVector`. -/
def Vec3.addScaled (a d : Vec3) (t : ℚ) : Vec3 :=
  ⟨a.x + d.x * t, a.y + d.y * t, a.z + d.z * t⟩

/-- Squared distance between two points (`Vector3.distanceToSquared`). -/
def Vec3.distSq (a b : Vec3) : ℚ := (a.sub b).dot (a.sub b)

/-- A world-space ray (three.js `Ray`): origin plus direction. -/
structure Ray3 where
  origin : Vec3
  direction : Vec3
deriving DecidableEq

/-- three.js `Ray.distanceSqToPoint`: squared distance from a point to the
ray, clamped at the origin for points projecting behind it. -/
def Ray3.distanceSqToPoint (r : Ray3) (p : Vec3) : ℚ :=
  let directionDistance := (p.sub r.origin).dot r.direction
  if directionDistance < 0 then r.origin.distSq p
  else (r.origin.addScaled r.direction directionDistance).distSq p

/-- One iteration of the picking scan in `PhotoCloud`'s `useFrame` body:
given the accumulator `(closestDist, closestId)` (initially `(∞, -1)`) and
the candidate `(idx, worldPos)`, update the accumulator when the candidate's
squared distance to the ray is below the 5.0 threshold and below the current
minimum. -/
def scanStep (r : Ray3) (acc : WithTop ℚ × ℤ) (entry : ℕ × Vec3) : WithTop ℚ × ℤ :=
  let dist := r.distanceSqToPoint entry.2
  if dist < 5 ∧ (dist : WithTop ℚ) < acc.1 then ((dist : WithTop ℚ), (entry.1 : ℤ))
  else acc

/-- Squared distance of candidate number `j` (in supplied list order) to the
ray; candidate ids are their indices, as in `PhotoCloud` where
`photos[idx].id = idx`. -/
def candDist (r : Ray3) (cands : List Vec3) (j : ℕ) : ℚ :=
  r.distanceSqToPoint (cands.getD j ⟨0, 0, 0⟩)

/-- The `groupRef.current.children.forEach` scan restricted to the first
`k` candidates, processed in list order. -/
def pickScanAux (r : Ray3) (cands : List Vec3) : ℕ → WithTop ℚ × ℤ
  | 0 => (⊤, -1)
  | k + 1 => scanStep r (pickScanAux r cands k) (k, cands.getD k ⟨0, 0, 0⟩)

/-- The full picking scan: `(closestDist, closestId)` after visiting every
candidate, starting from `(Infinity, -1)`. -/
def pickScan (r : Ray3) (cands : List Vec3) : WithTop ℚ × ℤ :=
  pickScanAux r cands cands.length

/-- One frame of the `PhotoCloud` picking block: when a ray is pending and
the state is not `PHOTO_VIEW`, scan the candidates; on a hit, publish the
selected id, request `PHOTO_VIEW` and clear the ray (`rayRef.current = null`);
on a miss, everything is left untouched (in particular the ray is kept).
With no pending ray (or while in `PHOTO_VIEW`), the scan is skipped; outside
`PHOTO_VIEW` the active photo id is reset. Returns
(new ray, new state, new active photo id). -/
def pickFrame (ray : Option Ray3) (s : AppState) (active : Option ℤ) (cands : List Vec3) :
    Option Ray3 × AppState × Option ℤ :=
  match ray with
  | some r =>
      if s ≠ AppState.PHOTO_VIEW then
        let res := pickScan r cands
        if res.2 ≠ -1 then (none, AppState.PHOTO_VIEW, some res.2)
        else (some r, s, active)
      else (some r, s, active)
  | none =>
      if s ≠ AppState.PHOTO_VIEW then (none, s, none)
      else (none, s, active)

/-- Number of successful picks while running the picker over a sequence of
frames (one candidate list per frame), with no new pinch ray arriving in
between.  A pick happened on a frame exactly when a pending ray was cleared
(the ray is cleared by `pickFrame` precisely on a hit). -/
def pickCount : Option Ray3 → AppState → Option ℤ → List (List Vec3) → ℕ
  | _, _, _, [] => 0
  | ray, s, active, cands :: rest =>
      let out := pickFrame ray s active cands
      (if ray.isSome ∧ out.1 = none then 1 else 0) + pickCount out.1 out.2.1 out.2.2 rest

/-- One hand landmark: normalized 2D coordinates (the classifier only reads
`.x` and `.y`). -/
structure Landmark where
  x : ℝ
  y : ℝ

/-- A detected hand: the 21 MediaPipe landmarks, indexed as in the source
(wrist 0, thumb tip 4, index MCP 5, index tip 8, middle MCP 9, middle tip 12,
ring MCP 13, ring tip 16, pinky MCP 17, pinky tip 20). -/
abbrev Landmarks := Fin 21 → Landmark

/-- `getDist`: `Math.hypot(landmarks[idx].x - wrist.x, landmarks[idx].y - wrist.y)`,
the Euclidean distance from the wrist (landmark 0) to landmark `idx`. -/
noncomputable def getDist (lms : Landmarks) (idx : Fin 21) : ℝ :=
  Real.sqrt (((lms idx).x - (lms 0).x) ^ 2 + ((lms idx).y - (lms 0).y) ^ 2)

/-- `getRatio`: curl ratio, tip distance over MCP distance (unguarded
division; the embedding inherits Lean's total division `x / 0 = 0`, where the
JS program would produce `Infinity` or `NaN`). -/
noncomputable def getRatio (lms : Landmarks) (tipIdx mcpIdx : Fin 21) : ℝ :=
  getDist lms tipIdx / getDist lms mcpIdx

/-- `avgRatio`: mean curl ratio of the four non-thumb fingers. -/
noncomputable def avgRatio (lms : Landmarks) : ℝ :=
  (getRatio lms 8 5 + getRatio lms 12 9 + getRatio lms 16 13 + getRatio lms 20 17) / 4

/-- `nonIndexRatio`: mean curl ratio of middle, ring and pinky only. -/
noncomputable def nonIndexRatio (lms : Landmarks) : ℝ :=
  (getRatio lms 12 9 + getRatio lms 16 13 + getRatio lms 20 17) / 3

/-- `pinchDist`: distance from the thumb tip (4) to the index tip (8). -/
noncomputable def pinchDist (lms : Landmarks) : ℝ :=
  Real.sqrt (((lms 4).x - (lms 8).x) ^ 2 + ((lms 4).y - (lms 8).y) ^ 2)

/-- `isPinchCandidate`: thumb tip and index tip closer than 0.08. -/
def isPinchCandidate (lms : Landmarks) : Prop := pinchDist lms < 0.08

/-- `palmWidth`: distance from index MCP (5) to pinky MCP (17). -/
noncomputable def palmWidth (lms : Landmarks) : ℝ :=
  Real.sqrt (((lms 5).x - (lms 17).x) ^ 2 + ((lms 5).y - (lms 17).y) ^ 2)

/-- `spreadWidth`: distance from index tip (8) to pinky tip (20). -/
noncomputable def spreadWidth (lms : Landmarks) : ℝ :=
  Real.sqrt (((lms 8).x - (lms 20).x) ^ 2 + ((lms 8).y - (lms 20).y) ^ 2)

/-- `spreadFactor = spreadWidth / (palmWidth || 1)`: the one division in the
classifier that is explicitly guarded against a zero divisor (`0` is falsy in
JS, so `palmWidth || 1` substitutes `1`). -/
noncomputable def spreadFactor (lms : Landmarks) : ℝ :=
  spreadWidth lms / (if palmWidth lms = 0 then 1 else palmWidth lms)

noncomputable instance isPinchCandidateDec (lms : Landmarks) : Decidable (isPinchCandidate lms) :=
  inferInstanceAs (Decidable (pinchDist lms < 0.08))

/-- The three mutually exclusive classification flags of the source
(`isFist` / `isPinch` / `isOpen`, all initially false, set by the first
matching rule). -/
structure GestureFlags where
  isFist : Bool
  isPinch : Bool
  isOpen : Bool
deriving DecidableEq

/-- The classification rules of `HandController`, first match wins:
Rule 1 FIST when `avgRatio < 1.35`; Rule 2 PINCH when additionally not a
fist, `isPinchCandidate` and `nonIndexRatio > 1.2`; Rule 3 OPEN when
`avgRatio > 1.5` or (`spreadFactor > 1.6` and `avgRatio > 1.25`); otherwise
no flag is set. -/
noncomputable def classify (lms : Landmarks) : GestureFlags :=
  if avgRatio lms < 1.35 then ⟨true, false, false⟩
  else if isPinchCandidate lms ∧ nonIndexRatio lms > 1.2 then ⟨false, true, false⟩
  else if avgRatio lms > 1.5 ∨ (spreadFactor lms > 1.6 ∧ avgRatio lms > 1.25) then
    ⟨false, false, true⟩
  else ⟨false, false, false⟩

/-- Raw pointer position: midpoint of thumb and index tip in the loose pinch
zone (`isPinch || pinchDist < 0.15`), palm center (midpoint of the two outer
MCPs) otherwise. -/
noncomputable def rawPointer (lms : Landmarks) : ℝ × ℝ :=
  if (classify lms).isPinch = true ∨ pinchDist lms < 0.15 then
    (((lms 4).x + (lms 8).x) / 2, ((lms 4).y + (lms 8).y) / 2)
  else
    (((lms 5).x + (lms 17).x) / 2, ((lms 5).y + (lms 17).y) / 2)

/-- Published pointer position: `handX = 1 - rawX` (mirrored), `handY = rawY`. -/
noncomputable def handPointer (lms : Landmarks) : ℝ × ℝ :=
  (1 - (rawPointer lms).1, (rawPointer lms).2)

/-- Initial application state, from `App.tsx`:
`useState<AppState>(AppState.FORMED)`. -/
def initialAppState : AppState := AppState.FORMED

/-- Initial morph progress, from `Scene.tsx`:
`useRef(appState === AppState.FORMED ? 1 : 0)`. -/
def progressRefInit (s : AppState) : ℚ :=
  if s = AppState.FORMED then 1 else 0

lemma frameStep_wasPinching (g : HandGesture) (now : ℕ) (s : CtrlState) :
    (frameStep (some g) now s).state.wasPinching = g.isPinch := by
  simp [frameStep]

lemma frameStep_ray_none (g : HandGesture) (now : ℕ) (s : CtrlState)
    (h : g.isPinch = false) : (frameStep (some g) now s).pinchRay = none := by
  simp [frameStep, h]

lemma frameStep_ray_rising (g : HandGesture) (now : ℕ) (s : CtrlState)
    (h : g.isPinch = true) (hw : s.wasPinching = false) :
    (frameStep (some g) now s).pinchRay = some (g.posX * 2 - 1, -(g.posY * 2) + 1) := by
  simp [frameStep, h, hw]

lemma frameStep_ray_held (g : HandGesture) (now : ℕ) (s : CtrlState)
    (h : s.wasPinching = true) : (frameStep (some g) now s).pinchRay = none := by
  simp [frameStep, h]

lemma fistStep_not_chaos (s : CtrlState) (now : ℕ) (h : ¬ s.appState = AppState.CHAOS) :
    (frameStep (some fistVerdict) now s).state = ⟨s.appState, s.gestureTimeout, false⟩ := by
  simp [frameStep, fistVerdict, h]

lemma fistStep_chaos_hit (t0 : ℕ) (w : Bool) (now : ℕ) (h : t0 < now) :
    (frameStep (some fistVerdict) now ⟨AppState.CHAOS, t0, w⟩).state =
      ⟨AppState.FORMED, now + 1000, false⟩ := by
  simp [frameStep, fistVerdict, h]

lemma fistStep_chaos_miss (t0 : ℕ) (w : Bool) (now : ℕ) (h : ¬ t0 < now) :
    (frameStep (some fistVerdict) now ⟨AppState.CHAOS, t0, w⟩).state =
      ⟨AppState.CHAOS, t0, false⟩ := by
  simp [frameStep, fistVerdict, h]

lemma transCount_fist_formed (nows : List ℕ) :
    ∀ s : CtrlState, s.appState = AppState.FORMED →
      transCount s (nows.map fun n => (some fistVerdict, n)) = 0 := by
  induction nows with
  | nil => intro s _; rfl
  | cons n rest ih =>
      intro s hs
      have hnc : ¬ s.appState = AppState.CHAOS := by rw [hs]; intro h; cases h
      have hstate := fistStep_not_chaos s n hnc
      simp only [List.map_cons, transCount, hstate, hs, ite_true, Nat.zero_add]
      exact ih ⟨AppState.FORMED, s.gestureTimeout, false⟩ rfl

/-- Claim C2, counterexample: the cooldown timestamp is NOT monotonic.
From CHAOS with an expired cooldown, a Fist at t=1000 transitions to FORMED
and sets the cooldown to 2000; a pinch on the next frame at t=1100
unconditionally overwrites it with 1100 + 500 = 1600, strictly smaller. -/
theorem cooldown_not_monotonic_cex :
    (frameStep (some fistVerdict) 1000 ⟨AppState.CHAOS, 0, false⟩).state.gestureTimeout = 2000 ∧
    (frameStep (some pinchVerdict) 1100
        (frameStep (some fistVerdict) 1000 ⟨AppState.CHAOS, 0, false⟩).state).state.gestureTimeout = 1600 ∧
    (frameStep (some pinchVerdict) 1100
        (frameStep (some fistVerdict) 1000 ⟨AppState.CHAOS, 0, false⟩).state).state.gestureTimeout <
      (frameStep (some fistVerdict) 1000 ⟨AppState.CHAOS, 0, false⟩).state.gestureTimeout := by
  refine ⟨rfl, rfl, ?_⟩
  decide

/-- Claim C2, amended: the cooldown never decreases on a frame whose verdict
is not a pinch (state-switch writes happen only once the previous cooldown
has expired) and is untouched on no-hand frames; but a frame with an active
pinch always overwrites it with exactly `now + 500`, which can be strictly
smaller than a pending 1000ms state-switch cooldown. -/
theorem cooldown_amended_spec :
    (∀ (s : CtrlState) (now : ℕ) (g : HandGesture), g.isPinch = false →
      s.gestureTimeout ≤ (frameStep (some g) now s).state.gestureTimeout) ∧
    (∀ (s : CtrlState) (now : ℕ),
      s.gestureTimeout ≤ (frameStep none now s).state.gestureTimeout) ∧
    (∀ (s : CtrlState) (now : ℕ) (g : HandGesture), g.isPinch = true →
      (frameStep (some g) now s).state.gestureTimeout = now + 500) := by
  refine ⟨?_, ?_, ?_⟩
  · intro s now g h
    simp only [frameStep, h, Bool.false_eq_true, if_false, ite_false]
    split_ifs <;> simp_all <;> omega
  · intro s now
    simp [frameStep]
  · intro s now g h
    simp only [frameStep, h, ite_true]
    split_ifs <;> simp_all

/-- Witness for the amended C2 theorem at concrete inputs. -/
theorem cooldown_amended_spec_witness :
    (fistVerdict.isPinch = false ∧
      (⟨AppState.CHAOS, 700, false⟩ : CtrlState).gestureTimeout ≤
        (frameStep (some fistVerdict) 1000 ⟨AppState.CHAOS, 700, false⟩).state.gestureTimeout) ∧
    (pinchVerdict.isPinch = true ∧
      (frameStep (some pinchVerdict) 1100 ⟨AppState.FORMED, 2000, false⟩).state.gestureTimeout =
        1100 + 500) := by
  exact ⟨⟨rfl, cooldown_amended_spec.1 ⟨AppState.CHAOS, 700, false⟩ 1000 fistVerdict rfl⟩,
    ⟨rfl, cooldown_amended_spec.2.2 ⟨AppState.FORMED, 2000, false⟩ 1100 pinchVerdict rfl⟩⟩

/-- Claim C3: starting in CHAOS, a persistent stream of Fist verdicts causes
exactly one transition (to FORMED), provided some frame's time beats the
initial cooldown; an Open verdict with `now` not after the cooldown changes
nothing; an Open verdict with `now` after the cooldown while FORMED or
PHOTO_VIEW transitions to CHAOS and sets the cooldown to `now + 1000`. -/
theorem state_switching_spec :
    (∀ (t0 : ℕ) (w : Bool) (nows : List ℕ), (∃ n ∈ nows, t0 < n) →
      transCount ⟨AppState.CHAOS, t0, w⟩ (nows.map fun n => (some fistVerdict, n)) = 1) ∧
    (∀ (s : CtrlState) (now : ℕ), now ≤ s.gestureTimeout →
      (frameStep (some openVerdict) now s).state.appState = s.appState) ∧
    (∀ (s : CtrlState) (now : ℕ), s.gestureTimeout < now →
      s.appState = AppState.FORMED ∨ s.appState = AppState.PHOTO_VIEW →
      (frameStep (some openVerdict) now s).state.appState = AppState.CHAOS ∧
      (frameStep (some openVerdict) now s).state.gestureTimeout = now + 1000) := by
  refine ⟨?_, ?_, ?_⟩
  · intro t0 w nows
    induction nows generalizing t0 w with
    | nil => intro h; simp at h
    | cons n rest ih =>
        intro h
        by_cases hn : t0 < n
        · simp only [List.map_cons, transCount, fistStep_chaos_hit t0 w n hn]
          rw [if_neg (by intro hc; cases hc)]
          rw [transCount_fist_formed rest ⟨AppState.FORMED, n + 1000, false⟩ rfl]
        · simp only [List.map_cons, transCount, fistStep_chaos_miss t0 w n hn, ite_true,
            Nat.zero_add]
          rcases h with ⟨m, hm, hml⟩
          rcases List.mem_cons.mp hm with hmn | hmr
          · exact absurd (hmn ▸ hml) hn
          · exact ih t0 false ⟨m, hmr, hml⟩
  · intro s now h
    simp [frameStep, openVerdict, Nat.not_lt.mpr h]
  · intro s now h hs
    simp [frameStep, openVerdict, h, hs]

/-- Witness for C3 at concrete inputs: initial cooldown 0, a single Fist
frame at t=600 transitions exactly once; Open at t=500 under a cooldown of
1000 does nothing; Open at t=1 with expired cooldown 0 leaves FORMED for
CHAOS with cooldown 1001. -/
theorem state_switching_spec_witness :
    ((∃ n ∈ [600], 0 < n) ∧
      transCount ⟨AppState.CHAOS, 0, false⟩ ([600].map fun n => (some fistVerdict, n)) = 1) ∧
    (500 ≤ (⟨AppState.FORMED, 1000, false⟩ : CtrlState).gestureTimeout ∧
      (frameStep (some openVerdict) 500 ⟨AppState.FORMED, 1000, false⟩).state.appState =
        AppState.FORMED) ∧
    ((⟨AppState.FORMED, 0, false⟩ : CtrlState).gestureTimeout < 1 ∧
      (frameStep (some openVerdict) 1 ⟨AppState.FORMED, 0, false⟩).state.appState =
        AppState.CHAOS ∧
      (frameStep (some openVerdict) 1 ⟨AppState.FORMED, 0, false⟩).state.gestureTimeout =
        1 + 1000) := by
  refine ⟨⟨by decide, state_switching_spec.1 0 false [600] (by decide)⟩,
    ⟨by decide, state_switching_spec.2.1 ⟨AppState.FORMED, 1000, false⟩ 500 (by decide)⟩,
    ⟨by decide, state_switching_spec.2.2 ⟨AppState.FORMED, 0, false⟩ 1 (by decide) (Or.inl rfl)⟩⟩

/-- Claim C4: over the four-frame verdict sequence (not-pinch, pinch, pinch,
not-pinch), starting from any controller state and at any frame times,
exactly one pinch ray is emitted, on the second frame (the rising edge);
none on the first, third or fourth frame. -/
theorem pinch_rising_edge_spec (s : CtrlState) (v1 v2 v3 v4 : HandGesture)
    (n1 n2 n3 n4 : ℕ)
    (h1 : v1.isPinch = false) (h2 : v2.isPinch = true)
    (h3 : v3.isPinch = true) (h4 : v4.isPinch = false) :
    (frameStep (some v1) n1 s).pinchRay = none ∧
    (frameStep (some v2) n2 (frameStep (some v1) n1 s).state).pinchRay =
      some (v2.posX * 2 - 1, -(v2.posY * 2) + 1) ∧
    (frameStep (some v3) n3
        (frameStep (some v2) n2 (frameStep (some v1) n1 s).state).state).pinchRay = none ∧
    (frameStep (some v4) n4
        (frameStep (some v3) n3
          (frameStep (some v2) n2 (frameStep (some v1) n1 s).state).state).state).pinchRay =
      none := by
  have w1 : (frameStep (some v1) n1 s).state.wasPinching = false := by
    rw [frameStep_wasPinching, h1]
  have w2 : (frameStep (some v2) n2 (frameStep (some v1) n1 s).state).state.wasPinching =
      true := by
    rw [frameStep_wasPinching, h2]
  exact ⟨frameStep_ray_none v1 n1 s h1,
    frameStep_ray_rising v2 n2 _ h2 w1,
    frameStep_ray_held v3 n3 _ w2,
    frameStep_ray_none v4 n4 _ h4⟩

/-- Witness for C4 at concrete inputs: the literal (not-pinch, pinch, pinch,
not-pinch) sequence from the spec, starting in FORMED with cooldown 0. -/
theorem pinch_rising_edge_spec_witness :
    (noHandGesture.isPinch = false ∧ pinchVerdict.isPinch = true) ∧
    ((frameStep (some noHandGesture) 100 ⟨AppState.FORMED, 0, false⟩).pinchRay = none ∧
      (frameStep (some pinchVerdict) 200
          (frameStep (some noHandGesture) 100 ⟨AppState.FORMED, 0, false⟩).state).pinchRay =
        some (pinchVerdict.posX * 2 - 1, -(pinchVerdict.posY * 2) + 1) ∧
      (frameStep (some pinchVerdict) 300
          (frameStep (some pinchVerdict) 200
            (frameStep (some noHandGesture) 100
              ⟨AppState.FORMED, 0, false⟩).state).state).pinchRay = none ∧
      (frameStep (some noHandGesture) 400
          (frameStep (some pinchVerdict) 300
            (frameStep (some pinchVerdict) 200
              (frameStep (some noHandGesture) 100
                ⟨AppState.FORMED, 0, false⟩).state).state).state).pinchRay = none) :=
  ⟨⟨rfl, rfl⟩,
    pinch_rising_edge_spec ⟨AppState.FORMED, 0, false⟩ noHandGesture pinchVerdict
      pinchVerdict noHandGesture 100 200 300 400 rfl rfl rfl rfl⟩

/-- Claim C8: on a frame with no hand detected the controller publishes the
None-equivalent verdict (all flags false, pointer at (0.5, 0.5)), emits no
ray, keeps the application state and the cooldown, and forces
`wasPinching` to false; hence a pinch verdict on the very next frame is a
fresh rising edge and emits a new pinch ray. -/
theorem no_hand_reset_spec (s : CtrlState) (now now2 : ℕ) (v : HandGesture)
    (hv : v.isPinch = true) :
    (frameStep none now s).gesture = noHandGesture ∧
    (frameStep none now s).pinchRay = none ∧
    (frameStep none now s).state.appState = s.appState ∧
    (frameStep none now s).state.gestureTimeout = s.gestureTimeout ∧
    (frameStep none now s).state.wasPinching = false ∧
    (frameStep (some v) now2 (frameStep none now s).state).pinchRay =
      some (v.posX * 2 - 1, -(v.posY * 2) + 1) := by
  refine ⟨rfl, rfl, rfl, rfl, rfl, ?_⟩
  exact frameStep_ray_rising v now2 _ hv rfl

/-- Witness for C8 at concrete inputs: tracking lost at t=100 while mid-pinch
(`wasPinching = true`), pinch regained at t=150 emits a new ray. -/
theorem no_hand_reset_spec_witness :
    pinchVerdict.isPinch = true ∧
    ((frameStep none 100 ⟨AppState.FORMED, 600, true⟩).gesture = noHandGesture ∧
      (frameStep none 100 ⟨AppState.FORMED, 600, true⟩).pinchRay = none ∧
      (frameStep none 100 ⟨AppState.FORMED, 600, true⟩).state.appState = AppState.FORMED ∧
      (frameStep none 100 ⟨AppState.FORMED, 600, true⟩).state.gestureTimeout = 600 ∧
      (frameStep none 100 ⟨AppState.FORMED, 600, true⟩).state.wasPinching = false ∧
      (frameStep (some pinchVerdict) 150
          (frameStep none 100 ⟨AppState.FORMED, 600, true⟩).state).pinchRay =
        some (pinchVerdict.posX * 2 - 1, -(pinchVerdict.posY * 2) + 1)) :=
  ⟨rfl, no_hand_reset_spec ⟨AppState.FORMED, 600, true⟩ 100 150 pinchVerdict rfl⟩

lemma pickScanAux_succ (r : Ray3) (cands : List Vec3) (k : ℕ) :
    pickScanAux r cands (k + 1) =
      (if candDist r cands k < 5 ∧
          ((candDist r cands k : WithTop ℚ)) < (pickScanAux r cands k).1 then
        ((candDist r cands k : WithTop ℚ), (k : ℤ))
      else pickScanAux r cands k) := by
  simp [pickScanAux, scanStep, candDist]

lemma pickScanAux_spec (r : Ray3) (cands : List Vec3) (k : ℕ) :
    (pickScanAux r cands k = (⊤, -1) ∧ ∀ j, j < k → 5 ≤ candDist r cands j) ∨
    (∃ i, i < k ∧
      pickScanAux r cands k = ((candDist r cands i : WithTop ℚ), (i : ℤ)) ∧
      candDist r cands i < 5 ∧
      (∀ j, j < k → candDist r cands j < 5 → candDist r cands i ≤ candDist r cands j) ∧
      (∀ j, j < i → candDist r cands j < 5 → candDist r cands i < candDist r cands j)) := by
  induction k with
  | zero =>
      left
      exact ⟨rfl, fun j hj => absurd hj (Nat.not_lt_zero j)⟩
  | succ k ih =>
      rcases ih with ⟨hEq, hAll⟩ | ⟨i, hik, hEq, hi5, hMin, hFirst⟩
      · by_cases hd : candDist r cands k < 5
        · right
          refine ⟨k, Nat.lt_succ_self k, ?_, hd, ?_, ?_⟩
          · rw [pickScanAux_succ, hEq]
            simp [hd]
          · intro j hj hj5
            rcases Nat.lt_succ_iff_lt_or_eq.mp hj with hjk | rfl
            · exact absurd hj5 (not_lt.mpr (hAll j hjk))
            · exact le_refl _
          · intro j hj hj5
            exact absurd hj5 (not_lt.mpr (hAll j hj))
        · left
          constructor
          · rw [pickScanAux_succ, hEq]
            simp [hd]
          · intro j hj
            rcases Nat.lt_succ_iff_lt_or_eq.mp hj with hjk | rfl
            · exact hAll j hjk
            · exact not_lt.mp hd
      · by_cases hd5 : candDist r cands k < 5
        · by_cases hdi : candDist r cands k < candDist r cands i
          · right
            refine ⟨k, Nat.lt_succ_self k, ?_, hd5, ?_, ?_⟩
            · rw [pickScanAux_succ, hEq]
              simp only [WithTop.coe_lt_coe]
              rw [if_pos ⟨hd5, hdi⟩]
            · intro j hj hj5
              rcases Nat.lt_succ_iff_lt_or_eq.mp hj with hjk | rfl
              · exact le_of_lt (lt_of_lt_of_le hdi (hMin j hjk hj5))
              · exact le_refl _
            · intro j hj hj5
              exact lt_of_lt_of_le hdi (hMin j hj hj5)
          · right
            refine ⟨i, lt_trans hik (Nat.lt_succ_self k), ?_, hi5, ?_, hFirst⟩
            · rw [pickScanAux_succ, hEq]
              simp only [WithTop.coe_lt_coe]
              rw [if_neg (by intro hc; exact hdi hc.2)]
            · intro j hj hj5
              rcases Nat.lt_succ_iff_lt_or_eq.mp hj with hjk | rfl
              · exact hMin j hjk hj5
              · exact not_lt.mp hdi
        · right
          refine ⟨i, lt_trans hik (Nat.lt_succ_self k), ?_, hi5, ?_, hFirst⟩
          · rw [pickScanAux_succ, hEq]
            rw [if_neg (by intro hc; exact hd5 hc.1)]
          · intro j hj hj5
            rcases Nat.lt_succ_iff_lt_or_eq.mp hj with hjk | rfl
            · exact hMin j hjk hj5
            · exact absurd hj5 hd5

/-- Claim C7: for every ray and candidate list, if every candidate's squared
distance to the ray is at least 5.0 the scan returns no-hit (`closestId = -1`)
and the picking frame changes nothing; otherwise the scan returns the index
(= id) of the candidate with the minimum squared distance among those below
5.0, where every earlier candidate under the threshold has a strictly larger
distance (ties go to the first-encountered candidate). -/
theorem picker_spec (r : Ray3) (cands : List Vec3) :
    ((∀ j, j < cands.length → 5 ≤ candDist r cands j) →
      (pickScan r cands).2 = -1 ∧
      ∀ (s : AppState) (active : Option ℤ), s ≠ AppState.PHOTO_VIEW →
        pickFrame (some r) s active cands = (some r, s, active)) ∧
    ((∃ j, j < cands.length ∧ candDist r cands j < 5) →
      ∃ i, i < cands.length ∧ (pickScan r cands).2 = (i : ℤ) ∧
        candDist r cands i < 5 ∧
        (∀ j, j < cands.length → candDist r cands j < 5 →
          candDist r cands i ≤ candDist r cands j) ∧
        (∀ j, j < i → candDist r cands j < 5 →
          candDist r cands i < candDist r cands j)) := by
  constructor
  · intro hFar
    have hres : (pickScan r cands).2 = -1 := by
      rcases pickScanAux_spec r cands cands.length with ⟨hEq, _⟩ | ⟨i, hik, _, hi5, _, _⟩
      · rw [pickScan, hEq]
      · exact absurd hi5 (not_lt.mpr (hFar i hik))
    refine ⟨hres, ?_⟩
    intro s active hs
    simp only [pickFrame, hs, ne_eq, not_false_iff, if_true]
    rw [if_neg (by simpa using hres)]
  · intro hNear
    rcases pickScanAux_spec r cands cands.length with ⟨_, hAll⟩ | ⟨i, hik, hEq, hi5, hMin, hFirst⟩
    · rcases hNear with ⟨j, hj, hj5⟩
      exact absurd hj5 (not_lt.mpr (hAll j hj))
    · exact ⟨i, hik, by rw [pickScan, hEq], hi5, hMin, hFirst⟩

/-- A pinch ray pointing down the positive z-axis from the origin. -/
def pickRay : Ray3 := ⟨⟨0, 0, 0⟩, ⟨0, 0, 1⟩⟩

/-- Candidate at squared distance 2.0 from `pickRay`. -/
def candNear : Vec3 := ⟨1, 1, 1⟩

/-- Candidate at squared distance 4.9 from `pickRay`. -/
def candMid : Vec3 := ⟨21/10, 7/10, 2⟩

/-- Candidate at squared distance 6.0 from `pickRay` (behind the origin, so
the distance is taken to the origin itself). -/
def candFarB : Vec3 := ⟨1, 1, -2⟩

/-- Candidate at squared distance 100 from `pickRay`. -/
def candFar : Vec3 := ⟨10, 0, 0⟩

lemma distSq_candNear : pickRay.distanceSqToPoint candNear = 2 := by
  norm_num [Ray3.distanceSqToPoint, pickRay, candNear, Vec3.sub, Vec3.dot, Vec3.addScaled,
    Vec3.distSq]

lemma distSq_candMid : pickRay.distanceSqToPoint candMid = 49/10 := by
  norm_num [Ray3.distanceSqToPoint, pickRay, candMid, Vec3.sub, Vec3.dot, Vec3.addScaled,
    Vec3.distSq]

lemma distSq_candFarB : pickRay.distanceSqToPoint candFarB = 6 := by
  norm_num [Ray3.distanceSqToPoint, pickRay, candFarB, Vec3.sub, Vec3.dot, Vec3.addScaled,
    Vec3.distSq]

lemma distSq_candFar : pickRay.distanceSqToPoint candFar = 100 := by
  norm_num [Ray3.distanceSqToPoint, pickRay, candFar, Vec3.sub, Vec3.dot, Vec3.addScaled,
    Vec3.distSq]

lemma candDist_far0 : candDist pickRay [candFar] 0 = 100 := by
  rw [candDist]
  exact distSq_candFar

lemma candDist_near0 : candDist pickRay [candNear] 0 = 2 := by
  rw [candDist]
  exact distSq_candNear

lemma candDist_three0 : candDist pickRay [candNear, candMid, candFarB] 0 = 2 := by
  rw [candDist]
  exact distSq_candNear

lemma candDist_three1 : candDist pickRay [candNear, candMid, candFarB] 1 = 49/10 := by
  rw [candDist]
  exact distSq_candMid

lemma candDist_three2 : candDist pickRay [candNear, candMid, candFarB] 2 = 6 := by
  rw [candDist]
  exact distSq_candFarB

lemma pickScan_far : pickScan pickRay [candFar] = (⊤, -1) := by
  show pickScanAux pickRay [candFar] 1 = (⊤, -1)
  rw [pickScanAux_succ, candDist_far0]
  norm_num [pickScanAux]

lemma pickScan_near : pickScan pickRay [candNear] = (((2 : ℚ) : WithTop ℚ), 0) := by
  show pickScanAux pickRay [candNear] 1 = _
  rw [pickScanAux_succ, candDist_near0]
  norm_num [pickScanAux, WithTop.coe_lt_top]

lemma pickScan_three :
    pickScan pickRay [candNear, candMid, candFarB] = (((2 : ℚ) : WithTop ℚ), 0) := by
  have h0 : pickScanAux pickRay [candNear, candMid, candFarB] 0 = (⊤, -1) := rfl
  have h1 : pickScanAux pickRay [candNear, candMid, candFarB] 1 =
      (((2 : ℚ) : WithTop ℚ), 0) := by
    rw [pickScanAux_succ, candDist_three0, h0]
    rw [if_pos ⟨by norm_num, WithTop.coe_lt_top 2⟩]
    norm_num
  have h2 : pickScanAux pickRay [candNear, candMid, candFarB] 2 =
      (((2 : ℚ) : WithTop ℚ), 0) := by
    rw [pickScanAux_succ, candDist_three1, h1]
    rw [if_neg]
    rintro ⟨-, hc⟩
    rw [WithTop.coe_lt_coe] at hc
    norm_num at hc
  show pickScanAux pickRay [candNear, candMid, candFarB] 3 = _
  rw [pickScanAux_succ, candDist_three2, h2]
  rw [if_neg]
  rintro ⟨hc, -⟩
  norm_num at hc

/-- Witness for C7: with candidates at squared distances {2.0, 4.9, 6.0} the
scan picks index 0 (distance 2.0); with the single candidate at squared
distance 100 it returns no-hit and the frame is unchanged. -/
theorem picker_spec_witness :
    ((∀ j, j < [candFar].length → 5 ≤ candDist pickRay [candFar] j) ∧
      (pickScan pickRay [candFar]).2 = -1 ∧
      pickFrame (some pickRay) AppState.CHAOS none [candFar] =
        (some pickRay, AppState.CHAOS, none)) ∧
    ((∃ j, j < [candNear, candMid, candFarB].length ∧
        candDist pickRay [candNear, candMid, candFarB] j < 5) ∧
      (∃ i, i < [candNear, candMid, candFarB].length ∧
        (pickScan pickRay [candNear, candMid, candFarB]).2 = (i : ℤ) ∧
        candDist pickRay [candNear, candMid, candFarB] i < 5 ∧
        (∀ j, j < [candNear, candMid, candFarB].length →
          candDist pickRay [candNear, candMid, candFarB] j < 5 →
          candDist pickRay [candNear, candMid, candFarB] i ≤
            candDist pickRay [candNear, candMid, candFarB] j) ∧
        (∀ j, j < i → candDist pickRay [candNear, candMid, candFarB] j < 5 →
          candDist pickRay [candNear, candMid, candFarB] i <
            candDist pickRay [candNear, candMid, candFarB] j)) ∧
      (pickScan pickRay [candNear, candMid, candFarB]).2 = 0) := by
  have hfar : ∀ j, j < [candFar].length → 5 ≤ candDist pickRay [candFar] j := by
    intro j hj
    simp only [List.length_singleton, Nat.lt_one_iff] at hj
    subst hj
    rw [candDist_far0]
    norm_num
  have hnear : ∃ j, j < [candNear, candMid, candFarB].length ∧
      candDist pickRay [candNear, candMid, candFarB] j < 5 :=
    ⟨0, by norm_num, by rw [candDist_three0]; norm_num⟩
  refine ⟨⟨hfar, (picker_spec pickRay [candFar]).1 hfar |>.1,
      ((picker_spec pickRay [candFar]).1 hfar).2 AppState.CHAOS none (by decide)⟩,
    hnear, (picker_spec pickRay [candNear, candMid, candFarB]).2 hnear, by
      rw [pickScan_three]⟩

/-- Claim C1, counterexample: reading does NOT clear the ray.  With a pending
ray and a single candidate at squared distance 100 (a miss), the picking
frame leaves the ray in place; on a later frame the same stale ray (from the
original pinch rising edge) hits a candidate at squared distance 2.0 and
triggers the pick and the PHOTO_VIEW transition. -/
theorem ray_consume_on_read_cex :
    pickFrame (some pickRay) AppState.FORMED none [candFar] =
      (some pickRay, AppState.FORMED, none) ∧
    pickFrame (some pickRay) AppState.FORMED none [candNear] =
      (none, AppState.PHOTO_VIEW, some 0) := by
  constructor
  · simp [pickFrame, pickScan_far]
  · simp [pickFrame, pickScan_near]

lemma pickFrame_ray_none (s : AppState) (active : Option ℤ) (cands : List Vec3) :
    (pickFrame none s active cands).1 = none := by
  simp only [pickFrame]
  split_ifs <;> rfl

lemma pickCount_none (frames : List (List Vec3)) :
    ∀ (s : AppState) (active : Option ℤ), pickCount none s active frames = 0 := by
  induction frames with
  | nil => intro s active; rfl
  | cons c rest ih =>
      intro s active
      simp only [pickCount, Option.isSome_none, Bool.false_eq_true, false_and, if_false,
        Nat.zero_add]
      have h1 := pickFrame_ray_none s active c
      rw [h1, ih]

/-- Claim C1, amended: a pinch ray triggers at most one pick over any frame
sequence (with no new pinch in between): the ray is cleared exactly when the
scan hits, and once cleared it can never pick again.  (Reading alone does not
consume it: see the counterexample, a miss leaves the ray pending.) -/
theorem pick_at_most_once (ray : Option Ray3) (s : AppState) (active : Option ℤ)
    (frames : List (List Vec3)) : pickCount ray s active frames ≤ 1 := by
  induction frames generalizing ray s active with
  | nil => exact Nat.zero_le 1
  | cons c rest ih =>
      cases ray with
      | none => rw [pickCount_none]; exact Nat.zero_le 1
      | some r =>
          by_cases h : (pickFrame (some r) s active c).1 = none
          · simp only [pickCount, Option.isSome_some, true_and, h, if_true]
            rw [pickCount_none]
          · simp only [pickCount, Option.isSome_some, true_and, h, if_false, Nat.zero_add]
            exact ih _ _ _

lemma fin21_val_0 : ((0 : Fin 21) : ℕ) = 0 := rfl

lemma fin21_val_4 : ((4 : Fin 21) : ℕ) = 4 := rfl

lemma fin21_val_5 : ((5 : Fin 21) : ℕ) = 5 := rfl

lemma fin21_val_8 : ((8 : Fin 21) : ℕ) = 8 := rfl

lemma fin21_val_9 : ((9 : Fin 21) : ℕ) = 9 := rfl

lemma fin21_val_12 : ((12 : Fin 21) : ℕ) = 12 := rfl

lemma fin21_val_13 : ((13 : Fin 21) : ℕ) = 13 := rfl

lemma fin21_val_16 : ((16 : Fin 21) : ℕ) = 16 := rfl

lemma fin21_val_17 : ((17 : Fin 21) : ℕ) = 17 := rfl

lemma fin21_val_20 : ((20 : Fin 21) : ℕ) = 20 := rfl

lemma getDist_x_axis (lms : Landmarks) (idx : Fin 21) (v : ℝ) (hv : 0 ≤ v)
    (h : lms idx = ⟨v, 0⟩) (h0 : lms 0 = ⟨0, 0⟩) : getDist lms idx = v := by
  rw [getDist, h, h0]
  show Real.sqrt ((v - 0) ^ 2 + ((0 : ℝ) - 0) ^ 2) = v
  rw [show (v - 0) ^ 2 + ((0 : ℝ) - 0) ^ 2 = v ^ 2 by ring]
  exact Real.sqrt_sq hv

/-- Claim C5: every landmark set with nondegenerate curl-ratio denominators
(so that exact real arithmetic agrees with the JS float computation) and
`avgRatio < 1.35` is classified as Fist — Rule 1 fires first, regardless of
the pinch distance, and the other two flags stay false. -/
theorem classify_fist_spec (lms : Landmarks)
    (h5 : getDist lms 5 ≠ 0) (h9 : getDist lms 9 ≠ 0)
    (h13 : getDist lms 13 ≠ 0) (h17 : getDist lms 17 ≠ 0)
    (h : avgRatio lms < 1.35) :
    classify lms = ⟨true, false, false⟩ := by
  rw [classify, if_pos h]

/-- A landmark set forming a fist: wrist at the origin, the four MCP
knuckles at x = 0.2 and the four non-thumb tips curled in at x = 0.1, thumb
at the wrist. -/
noncomputable def fistLms : Landmarks := fun i =>
  if i.val = 8 ∨ i.val = 12 ∨ i.val = 16 ∨ i.val = 20 then ⟨0.1, 0⟩
  else if i.val = 5 ∨ i.val = 9 ∨ i.val = 13 ∨ i.val = 17 then ⟨0.2, 0⟩
  else ⟨0, 0⟩

lemma fistLms_wrist : fistLms 0 = ⟨0, 0⟩ := by
  norm_num [fistLms, fin21_val_0]

lemma getDist_fistLms_5 : getDist fistLms 5 = 0.2 :=
  getDist_x_axis _ _ _ (by norm_num) (by norm_num [fistLms, fin21_val_5]) fistLms_wrist

lemma getDist_fistLms_9 : getDist fistLms 9 = 0.2 :=
  getDist_x_axis _ _ _ (by norm_num) (by norm_num [fistLms, fin21_val_9]) fistLms_wrist

lemma getDist_fistLms_13 : getDist fistLms 13 = 0.2 :=
  getDist_x_axis _ _ _ (by norm_num) (by norm_num [fistLms, fin21_val_13]) fistLms_wrist

lemma getDist_fistLms_17 : getDist fistLms 17 = 0.2 :=
  getDist_x_axis _ _ _ (by norm_num) (by norm_num [fistLms, fin21_val_17]) fistLms_wrist

lemma getDist_fistLms_8 : getDist fistLms 8 = 0.1 :=
  getDist_x_axis _ _ _ (by norm_num) (by norm_num [fistLms, fin21_val_8]) fistLms_wrist

lemma getDist_fistLms_12 : getDist fistLms 12 = 0.1 :=
  getDist_x_axis _ _ _ (by norm_num) (by norm_num [fistLms, fin21_val_12]) fistLms_wrist

lemma getDist_fistLms_16 : getDist fistLms 16 = 0.1 :=
  getDist_x_axis _ _ _ (by norm_num) (by norm_num [fistLms, fin21_val_16]) fistLms_wrist

lemma getDist_fistLms_20 : getDist fistLms 20 = 0.1 :=
  getDist_x_axis _ _ _ (by norm_num) (by norm_num [fistLms, fin21_val_20]) fistLms_wrist

lemma avgRatio_fistLms : avgRatio fistLms = 1/2 := by
  rw [avgRatio]
  simp only [getRatio]
  rw [getDist_fistLms_8, getDist_fistLms_5, getDist_fistLms_12, getDist_fistLms_9,
    getDist_fistLms_16, getDist_fistLms_13, getDist_fistLms_20, getDist_fistLms_17]
  norm_num

/-- Witness for C5 at the concrete fist landmark set. -/
theorem classify_fist_spec_witness :
    (getDist fistLms 5 ≠ 0 ∧ getDist fistLms 9 ≠ 0 ∧ getDist fistLms 13 ≠ 0 ∧
      getDist fistLms 17 ≠ 0 ∧ avgRatio fistLms < 1.35) ∧
    classify fistLms = ⟨true, false, false⟩ := by
  have h5 : getDist fistLms 5 ≠ 0 := by rw [getDist_fistLms_5]; norm_num
  have h9 : getDist fistLms 9 ≠ 0 := by rw [getDist_fistLms_9]; norm_num
  have h13 : getDist fistLms 13 ≠ 0 := by rw [getDist_fistLms_13]; norm_num
  have h17 : getDist fistLms 17 ≠ 0 := by rw [getDist_fistLms_17]; norm_num
  have hav : avgRatio fistLms < 1.35 := by rw [avgRatio_fistLms]; norm_num
  exact ⟨⟨h5, h9, h13, h17, hav⟩, classify_fist_spec fistLms h5 h9 h13 h17 hav⟩

/-- Claim C6: whenever the thumb and index tips are close enough to be a
pinch candidate but the mean curl of middle/ring/pinky is at most 1.2, the
classifier never reports Pinch (Rule 2's fist-priority guard `nonIndexRatio
> 1.2` blocks it; the nondegeneracy hypotheses pin the real-number ratios to
the JS computation). -/
theorem classify_pinch_guard_spec (lms : Landmarks)
    (h9 : getDist lms 9 ≠ 0) (h13 : getDist lms 13 ≠ 0) (h17 : getDist lms 17 ≠ 0)
    (hc : isPinchCandidate lms) (hn : nonIndexRatio lms ≤ 1.2) :
    (classify lms).isPinch = false := by
  rw [classify]
  split_ifs with h1 h2 h3
  · rfl
  · exact absurd h2.2 (not_lt.mpr hn)
  · rfl
  · rfl

/-- A landmark set mid-way into a fist with thumb and index tips touching:
wrist at the origin, thumb tip and index tip both at x = 0.5, every other
knuckle and tip at x = 0.4 (curl ratio 1 for middle/ring/pinky). -/
noncomputable def pinchLms : Landmarks := fun i =>
  if i.val = 0 then ⟨0, 0⟩
  else if i.val = 4 ∨ i.val = 8 then ⟨0.5, 0⟩
  else ⟨0.4, 0⟩

lemma pinchLms_wrist : pinchLms 0 = ⟨0, 0⟩ := by
  norm_num [pinchLms, fin21_val_0]

lemma getDist_pinchLms_9 : getDist pinchLms 9 = 0.4 :=
  getDist_x_axis _ _ _ (by norm_num) (by norm_num [pinchLms, fin21_val_9]) pinchLms_wrist

lemma getDist_pinchLms_13 : getDist pinchLms 13 = 0.4 :=
  getDist_x_axis _ _ _ (by norm_num) (by norm_num [pinchLms, fin21_val_13]) pinchLms_wrist

lemma getDist_pinchLms_17 : getDist pinchLms 17 = 0.4 :=
  getDist_x_axis _ _ _ (by norm_num) (by norm_num [pinchLms, fin21_val_17]) pinchLms_wrist

lemma getDist_pinchLms_12 : getDist pinchLms 12 = 0.4 :=
  getDist_x_axis _ _ _ (by norm_num) (by norm_num [pinchLms, fin21_val_12]) pinchLms_wrist

lemma getDist_pinchLms_16 : getDist pinchLms 16 = 0.4 :=
  getDist_x_axis _ _ _ (by norm_num) (by norm_num [pinchLms, fin21_val_16]) pinchLms_wrist

lemma getDist_pinchLms_20 : getDist pinchLms 20 = 0.4 :=
  getDist_x_axis _ _ _ (by norm_num) (by norm_num [pinchLms, fin21_val_20]) pinchLms_wrist

lemma pinchDist_pinchLms : pinchDist pinchLms = 0 := by
  rw [pinchDist, show pinchLms 4 = ⟨0.5, 0⟩ from by norm_num [pinchLms, fin21_val_4],
    show pinchLms 8 = ⟨0.5, 0⟩ from by norm_num [pinchLms, fin21_val_8]]
  show Real.sqrt (((0.5 : ℝ) - 0.5) ^ 2 + ((0 : ℝ) - 0) ^ 2) = 0
  norm_num

lemma nonIndexRatio_pinchLms : nonIndexRatio pinchLms = 1 := by
  rw [nonIndexRatio]
  simp only [getRatio]
  rw [getDist_pinchLms_12, getDist_pinchLms_9, getDist_pinchLms_16, getDist_pinchLms_13,
    getDist_pinchLms_20, getDist_pinchLms_17]
  norm_num

/-- Witness for C6 at the concrete curling-fist-with-touching-pinch landmark
set. -/
theorem classify_pinch_guard_spec_witness :
    (getDist pinchLms 9 ≠ 0 ∧ getDist pinchLms 13 ≠ 0 ∧ getDist pinchLms 17 ≠ 0 ∧
      isPinchCandidate pinchLms ∧ nonIndexRatio pinchLms ≤ 1.2) ∧
    (classify pinchLms).isPinch = false := by
  have h9 : getDist pinchLms 9 ≠ 0 := by rw [getDist_pinchLms_9]; norm_num
  have h13 : getDist pinchLms 13 ≠ 0 := by rw [getDist_pinchLms_13]; norm_num
  have h17 : getDist pinchLms 17 ≠ 0 := by rw [getDist_pinchLms_17]; norm_num
  have hc : isPinchCandidate pinchLms := by
    rw [isPinchCandidate, pinchDist_pinchLms]; norm_num
  have hn : nonIndexRatio pinchLms ≤ 1.2 := by rw [nonIndexRatio_pinchLms]; norm_num
  exact ⟨⟨h9, h13, h17, hc, hn⟩, classify_pinch_guard_spec pinchLms h9 h13 h17 hc hn⟩

/-- Claim C9, amended: the classifier's divisions never trap — the
`spreadFactor` divisor is explicitly guarded and thus always nonzero, and a
curl-ratio divisor `getDist lms mcp` is nonzero whenever the MCP landmark
differs from the wrist; but the curl-ratio division itself carries no guard,
so the divisor IS zero on an admissible input whose MCP coincides with the
wrist (see the counterexample). -/
theorem curl_denominator_spec :
    (∀ (lms : Landmarks) (idx : Fin 21), lms idx ≠ lms 0 → getDist lms idx ≠ 0) ∧
    (∀ lms : Landmarks, (if palmWidth lms = 0 then (1 : ℝ) else palmWidth lms) ≠ 0) := by
  constructor
  · intro lms idx hne
    rw [getDist, Real.sqrt_ne_zero']
    have hxy : (lms idx).x ≠ (lms 0).x ∨ (lms idx).y ≠ (lms 0).y := by
      by_contra hc
      push_neg at hc
      refine hne ?_
      have h1 : lms idx = ⟨(lms idx).x, (lms idx).y⟩ := rfl
      rw [h1, hc.1, hc.2]
    rcases hxy with hx | hy
    · have h1 : 0 < ((lms idx).x - (lms 0).x) ^ 2 :=
        pow_two_pos_of_ne_zero (sub_ne_zero.mpr hx)
      have h2 : 0 ≤ ((lms idx).y - (lms 0).y) ^ 2 := sq_nonneg _
      linarith
    · have h1 : 0 < ((lms idx).y - (lms 0).y) ^ 2 :=
        pow_two_pos_of_ne_zero (sub_ne_zero.mpr hy)
      have h2 : 0 ≤ ((lms idx).x - (lms 0).x) ^ 2 := sq_nonneg _
      linarith
  · intro lms
    split_ifs with h
    · exact one_ne_zero
    · exact h

/-- Witness for the amended C9 theorem: on the fist landmark set the index
MCP differs from the wrist, so its curl-ratio divisor is nonzero, and the
guarded `spreadFactor` divisor is nonzero as well. -/
theorem curl_denominator_spec_witness :
    (fistLms 5 ≠ fistLms 0 ∧ getDist fistLms 5 ≠ 0) ∧
    (if palmWidth fistLms = 0 then (1 : ℝ) else palmWidth fistLms) ≠ 0 := by
  have hne : fistLms 5 ≠ fistLms 0 := by
    rw [show fistLms 5 = ⟨0.2, 0⟩ from by norm_num [fistLms, fin21_val_5], fistLms_wrist]
    intro hc
    have hx : (0.2 : ℝ) = 0 := congrArg Landmark.x hc
    norm_num at hx
  exact ⟨⟨hne, curl_denominator_spec.1 fistLms 5 hne⟩, curl_denominator_spec.2 fistLms⟩

/-- A degenerate but admissible landmark set: all 21 landmarks at the frame
center (0.5, 0.5), so every coordinate lies in [0, 1] and every MCP
coincides with the wrist. -/
noncomputable def degLms : Landmarks := fun _ => ⟨1/2, 1/2⟩

/-- Claim C9, counterexample: on the admissible degenerate landmark set the
curl-ratio divisor `getDist` at the index MCP (landmark 5) is exactly zero —
the division `getDist(8) / getDist(5)` in `getRatio` is an unguarded
division by zero (the JS program evaluates it to `NaN`). -/
theorem curl_denominator_zero_cex :
    getDist degLms 5 = 0 ∧
    degLms 5 = degLms 0 ∧
    (0 ≤ (degLms 0).x ∧ (degLms 0).x ≤ 1 ∧ 0 ≤ (degLms 0).y ∧ (degLms 0).y ≤ 1) ∧
    (0 ≤ (degLms 5).x ∧ (degLms 5).x ≤ 1 ∧ 0 ≤ (degLms 5).y ∧ (degLms 5).y ≤ 1) := by
  refine ⟨?_, rfl, by norm_num [degLms], by norm_num [degLms]⟩
  rw [getDist]
  show Real.sqrt ((((1 : ℝ)/2) - 1/2) ^ 2 + (((1 : ℝ)/2) - 1/2) ^ 2) = 0
  norm_num

/-- Claim C10: the application starts in FORMED (not CHAOS), and the scene's
morph progress ref is accordingly initialized to 1. -/
theorem initial_state_spec :
    initialAppState = AppState.FORMED ∧
    initialAppState ≠ AppState.CHAOS ∧
    progressRefInit initialAppState = 1 := by
  refine ⟨rfl, ?_, rfl⟩
  intro h
  cases h
